import Mathlib

/-!
Verification of `postprocess_browsecomp.py` (simple-evals post-processor).

Shallow embedding conventions:
* Python strings are `List Char`; file paths are Lean `String`.
* Python floats are modelled as exact rationals `ℚ` (all literals the
  claims touch, such as 0.75, 1.0, 0.0, are exactly representable).
* `re.search` for the fixed pattern `Score:\s*(True|False|[0-9]+(?:\.[0-9]+)?)`
  is modelled by a deterministic leftmost-match scanner: at each position the
  literal "Score:" must match, then greedy whitespace, then the ordered
  alternation (the alternatives start with 'T', 'F' or a digit, none of which
  is whitespace, so greedy matching with no backtracking is exact here).
* `\s` is modelled on its ASCII fragment (space, tab, newline, return,
  vertical tab, form feed); the claims use only ASCII data.
* Fatal `SystemExit` paths are modelled with `Except String`.
-/

/-- ASCII fragment of Python's `\s` character class. -/
def isPySpace (c : Char) : Bool :=
  c = ' ' || c = '\t' || c = '\n' || c = '\r' || c = '\x0b' || c = '\x0c'

/-- Python `str.strip()`: drop leading and trailing whitespace. -/
def pyStrip (cs : List Char) : List Char :=
  ((cs.dropWhile isPySpace).reverse.dropWhile isPySpace).reverse

/-- The capture group `(True|False|[0-9]+(?:\.[0-9]+)?)` tried at the head of
`cs`; returns the captured token. Alternatives are tried in order, the numeric
one with greedy digit runs. -/
def matchGroup (cs : List Char) : Option (List Char) :=
  if cs.take 4 = "True".toList then some ("True".toList)
  else if cs.take 5 = "False".toList then some ("False".toList)
  else
    let ds := cs.takeWhile Char.isDigit
    let rest := cs.dropWhile Char.isDigit
    if ds = [] then none
    else
      match rest with
      | '.' :: rest2 =>
        let fs := rest2.takeWhile Char.isDigit
        if fs = [] then some ds else some (ds ++ '.' :: fs)
      | _ => some ds

/-- Try the whole pattern anchored at the head of `cs`: the literal
`Score:`, then `\s*`, then the capture group. -/
def matchScoreAt (cs : List Char) : Option (List Char) :=
  if cs.take 6 = "Score:".toList then
    matchGroup ((cs.drop 6).dropWhile isPySpace)
  else none

/-- `re.search`: scan left to right for the first position where the pattern
matches; return the captured token of that leftmost match. -/
def reSearchScore : List Char → Option (List Char)
  | [] => none
  | c :: cs =>
    match matchScoreAt (c :: cs) with
    | some t => some t
    | none => reSearchScore cs

/-- Numeric value of a digit string (most significant first). -/
def digitsVal (ds : List Char) : ℕ :=
  ds.foldl (fun a c => 10 * a + (c.toNat - 48)) 0

/-- `float(token)` for a token of shape `[0-9]+(\.[0-9]+)?`, as an exact
rational. -/
def decimalValue (t : List Char) : ℚ :=
  let ip := t.takeWhile (fun c => c ≠ '.')
  match t.dropWhile (fun c => c ≠ '.') with
  | [] => (digitsVal ip : ℚ)
  | _ :: fp => (digitsVal ip : ℚ) + (digitsVal fp : ℚ) / (10 : ℚ) ^ fp.length

/-- `extract_score_from_html`: regex-search the snippet; `True` ↦ 1.0,
`False` ↦ 0.0, a decimal token ↦ its float value; no match ↦ `None`. -/
def extract_score_from_html (html : List Char) : Option ℚ :=
  match reSearchScore html with
  | none => none
  | some token =>
    if token = "True".toList then some 1
    else if token = "False".toList then some 0
    else some (decimalValue token)

/-- One conversation message; only `content` is read by this tool.
`content = none` models a missing `"content"` key (`dict.get` gives `None`). -/
structure Message where
  role : Option (List Char) := none
  content : Option (List Char) := none
deriving DecidableEq

/-- The placeholder marker `"No response (bad request)"`. -/
def noRespMarker : List Char := "No response (bad request)".toList

/-- `is_empty_assistant`: empty conversation, or last content that strips to
`""` (with `get("content") or ""` defaulting a missing/None content), or
stripped content starting with the placeholder marker. -/
def is_empty_assistant (convo : List Message) : Bool :=
  match convo.getLast? with
  | none => true
  | some last =>
    let content := pyStrip (last.content.getD [])
    if content = [] then true
    else if content.take noRespMarker.length = noRespMarker then true
    else false

/-- Outcome of one iteration of the aggregation loop. -/
inductive Outcome where
  | kept (score : ℚ) (html : List Char)
  | skipped
deriving DecidableEq

/-- Body of the aggregation loop at one index: empty conversation ⇒ skip;
unextractable score ⇒ skip; otherwise keep the score and the snippet. -/
def classify (html : List Char) (convo : List Message) : Outcome :=
  if is_empty_assistant convo then Outcome.skipped
  else
    match extract_score_from_html html with
    | none => Outcome.skipped
    | some s => Outcome.kept s html

/-- Accumulated state of the aggregation loop. -/
structure LoopResult where
  kept_scores : List ℚ
  kept_htmls : List (List Char)
  skipped : ℕ
deriving DecidableEq

/-- The aggregation loop over the zipped `(html, convo)` pairs, preserving
the order of appends. -/
def loop : List (List Char × List Message) → LoopResult
  | [] => ⟨[], [], 0⟩
  | (h, c) :: rest =>
    let r := loop rest
    match classify h c with
    | Outcome.skipped => ⟨r.kept_scores, r.kept_htmls, r.skipped + 1⟩
    | Outcome.kept s hh => ⟨s :: r.kept_scores, hh :: r.kept_htmls, r.skipped⟩

/-- `statistics.mean` on a nonempty list (exact rational arithmetic). -/
def pyMean (xs : List ℚ) : ℚ := xs.sum / xs.length

/-- The loaded JSON bundle; `none` fields model missing top-level keys. -/
structure Bundle where
  htmls : Option (List (List Char)) := none
  convos : Option (List (List Message)) := none
  score : Option ℚ := none
deriving DecidableEq

/-- `data.get("htmls", [])`. -/
def getHtmls (b : Bundle) : List (List Char) := b.htmls.getD []

/-- `data.get("convos", [])`. -/
def getConvos (b : Bundle) : List (List Message) := b.convos.getD []

/-- The summary object printed to stdout. -/
structure Summary where
  file : String
  original_aggregate_score : Option ℚ
  total_examples : ℕ
  kept_examples : ℕ
  skipped_examples : ℕ
  recomputed_accuracy_excluding_empty : ℚ
deriving DecidableEq

/-- Fixed-point style rendering of the accuracy for the header (`:.3f`,
rounding modelled with round-half-up on the exact rational). -/
def fmt3 (q : ℚ) : List Char :=
  let n : ℤ := round (q * 1000)
  let np := n.natAbs
  let frac := Nat.repr (np % 1000)
  (if n < 0 then "-".toList else []) ++ (Nat.repr (np / 1000)).toList
    ++ ".".toList ++ List.replicate (3 - frac.length) '0' ++ frac.toList

/-- `os.path.basename`: the part of the path after the last slash. -/
def pyBasename (p : String) : String :=
  String.mk ((p.toList.reverse.takeWhile (fun c => c ≠ '/')).reverse)

/-- The synthesized header block prepended to the kept snippets. -/
def header_block (srcName : String) (total kept skipped : ℕ) (acc : ℚ) :
    List Char :=
  "<h2>Postprocessed Report</h2><p>Source JSON: ".toList ++ srcName.toList
    ++ "</p><p>Total: ".toList ++ (Nat.repr total).toList
    ++ " | Kept: ".toList ++ (Nat.repr kept).toList
    ++ " | Skipped: ".toList ++ (Nat.repr skipped).toList
    ++ " | Accuracy (kept): ".toList ++ fmt3 acc ++ "</p>".toList

/-- Modelled from the spec: `common.make_report_from_example_htmls` is
repository code not present under src/; the spec describes it as an opaque
renderer taking ordered fragments to one concatenated document string,
preserving fragment order. -/
def make_report_from_example_htmls (fragments : List (List Char)) :
    List Char :=
  fragments.foldr (fun a b => a ++ b) []

/-- Everything the run emits after the input is resolved and parsed:
whether the length-mismatch warning was printed, the stdout summary, the
fragment list handed to the report renderer, and the rendered report. -/
structure Output where
  warning : Bool
  summary : Summary
  report_fragments : List (List Char)
  report_html : List Char
deriving DecidableEq

/-- The body of `main` after the file is loaded and parsed: defaults for
missing keys, warning on length mismatch, aggregation over the first
`min` indices, mean with the explicit empty convention, summary and report. -/
def processBundle (path : String) (b : Bundle) : Output :=
  let htmls := getHtmls b
  let convos := getConvos b
  let total := htmls.length
  let r := loop (htmls.zip convos)
  let kept := r.kept_scores.length
  let recomputed_acc : ℚ := if r.kept_scores = [] then 0 else pyMean r.kept_scores
  let fragments :=
    header_block (pyBasename path) total kept r.skipped recomputed_acc :: r.kept_htmls
  { warning := decide (convos.length ≠ total)
  , summary :=
    { file := path
    , original_aggregate_score := b.score
    , total_examples := total
    , kept_examples := kept
    , skipped_examples := r.skipped
    , recomputed_accuracy_excluding_empty := recomputed_acc }
  , report_fragments := fragments
  , report_html := make_report_from_example_htmls fragments }

/-- Python truthiness of the optional `--file` argument (the empty string is
falsy). -/
def optTruthy (s : Option String) : Bool :=
  match s with
  | none => false
  | some str => !str.isEmpty

/-- Input resolution: `--file` verbatim when truthy; otherwise `--latest`
picks the last of the lexicographically sorted candidates, failing when
there are none; failing when no path results. -/
def resolveInput (file : Option String) (latest : Bool)
    (candidates : List String) : Except String String :=
  let step1 : Except String (Option String) :=
    if latest && !(optTruthy file) then
      match (candidates.mergeSort (fun a b => a ≤ b)).getLast? with
      | none => Except.error "No /tmp/browsecomp_*_allresults.json files found"
      | some c => Except.ok (some c)
    else Except.ok file
  match step1 with
  | Except.error e => Except.error e
  | Except.ok rf =>
    if optTruthy rf then Except.ok (rf.getD "")
    else Except.error "Must provide --file or --latest"

/-- `main`, fatal configuration errors as `Except.error` (a raised
`SystemExit` with a message: nonzero exit, nothing emitted); on success the
full `Output`.  The bundle argument stands for the successfully parsed
JSON document. -/
def mainModel (file : Option String) (latest : Bool)
    (candidates : List String) (b : Bundle) : Except String Output :=
  match resolveInput file latest candidates with
  | Except.error e => Except.error e
  | Except.ok path => Except.ok (processBundle path b)

/-! ### Helper lemmas about the aggregation loop -/

/-- Each processed pair contributes exactly one unit, to kept or to skipped. -/
theorem loop_kept_add_skipped (pairs : List (List Char × List Message)) :
    (loop pairs).kept_scores.length + (loop pairs).skipped = pairs.length := by
  induction pairs with
  | nil => rfl
  | cons p rest ih =>
    obtain ⟨h, c⟩ := p
    simp only [loop]
    cases classify h c <;> simp only [List.length_cons, List.length] <;> omega

/-- The kept snippet list and the kept score list grow in lockstep. -/
theorem loop_kept_htmls_length (pairs : List (List Char × List Message)) :
    (loop pairs).kept_htmls.length = (loop pairs).kept_scores.length := by
  induction pairs with
  | nil => rfl
  | cons p rest ih =>
    obtain ⟨h, c⟩ := p
    simp only [loop]
    cases classify h c <;> simp only [List.length_cons] <;> omega

/-- C1: in every processed bundle, kept examples plus skipped examples equal
`min (len htmls) (len convos)`: each index below the min is counted exactly
once, as kept or as skipped. -/
theorem kept_add_skipped_eq_min (path : String) (b : Bundle) :
    (processBundle path b).summary.kept_examples
      + (processBundle path b).summary.skipped_examples
      = min (getHtmls b).length (getConvos b).length := by
  show (loop ((getHtmls b).zip (getConvos b))).kept_scores.length
      + (loop ((getHtmls b).zip (getConvos b))).skipped = _
  rw [loop_kept_add_skipped, List.length_zip]

/-- C2: the reported accuracy is the arithmetic mean of exactly the kept
scores, and is 0 whenever no example is kept (total function, no failure on
the empty list). -/
theorem recomputed_acc_mean_of_kept (path : String) (b : Bundle) :
    ((loop ((getHtmls b).zip (getConvos b))).kept_scores ≠ [] →
      (processBundle path b).summary.recomputed_accuracy_excluding_empty
        = ((loop ((getHtmls b).zip (getConvos b))).kept_scores).sum
          / ((loop ((getHtmls b).zip (getConvos b))).kept_scores).length)
    ∧ ((processBundle path b).summary.kept_examples = 0 →
      (processBundle path b).summary.recomputed_accuracy_excluding_empty = 0) := by
  constructor
  · intro hne
    show (if (loop ((getHtmls b).zip (getConvos b))).kept_scores = [] then (0 : ℚ)
          else pyMean (loop ((getHtmls b).zip (getConvos b))).kept_scores) = _
    rw [if_neg hne]
    rfl
  · intro h0
    have hnil : (loop ((getHtmls b).zip (getConvos b))).kept_scores = [] :=
      List.length_eq_zero.mp h0
    show (if (loop ((getHtmls b).zip (getConvos b))).kept_scores = [] then (0 : ℚ)
          else pyMean (loop ((getHtmls b).zip (getConvos b))).kept_scores) = 0
    rw [if_pos hnil]

/-- C2 witness: the empty bundle keeps nothing and reports accuracy 0. -/
theorem recomputed_acc_mean_of_kept_witness :
    (processBundle "f" {}).summary.kept_examples = 0 ∧
    (processBundle "f" {}).summary.recomputed_accuracy_excluding_empty = 0 :=
  ⟨rfl, (recomputed_acc_mean_of_kept "f" {}).2 rfl⟩

/-- C3 counterexample: the extractor can return a score above 1.0 — on the
snippet `"Score: 2"` it returns 2.0, which is outside `[0.0, 1.0]`. -/
theorem extract_score_above_one :
    extract_score_from_html ("Score: 2".toList) = some 2 ∧ (1 : ℚ) < 2 := by
  constructor
  · decide
  · norm_num

/-- The decimal value of a matched numeric token is nonnegative. -/
theorem decimalValue_nonneg (t : List Char) : 0 ≤ decimalValue t := by
  unfold decimalValue
  split
  · positivity
  · positivity

/-- C3 (amended): every score the extractor returns is nonnegative; the
upper bound 1.0 does not hold in general (see the counterexample), because
the numeric alternative of the pattern matches any unsigned decimal. -/
theorem extract_score_nonneg (html : List Char) (q : ℚ)
    (h : extract_score_from_html html = some q) : 0 ≤ q := by
  unfold extract_score_from_html at h
  split at h
  · cases h
  · split at h
    · injection h with h1
      rw [← h1]
      norm_num
    · split at h
      · injection h with h1
        rw [← h1]
      · injection h with h1
        rw [← h1]
        exact decimalValue_nonneg _

/-- C3 witness: on `"Score: True"` the extractor returns 1.0, and the
amended bound applies. -/
theorem extract_score_nonneg_witness :
    extract_score_from_html ("Score: True".toList) = some 1 ∧ (0 : ℚ) ≤ 1 :=
  ⟨by decide, extract_score_nonneg ("Score: True".toList) 1 (by decide)⟩

/-- C5: the extractor maps `Score: True` to 1.0, `Score: False` to 0.0,
`Score: 0.75` to 0.75, and a snippet without the marker to no score. -/
theorem extract_score_examples :
    extract_score_from_html ("... Score: True ...".toList) = some 1 ∧
    extract_score_from_html ("... Score: False ...".toList) = some 0 ∧
    extract_score_from_html ("... Score: 0.75 ...".toList) = some (0.75 : ℚ) ∧
    extract_score_from_html ("no marker here".toList) = none := by
  refine ⟨by decide, by decide, ?_, by decide⟩
  show some (decimalValue ("0.75".toList)) = some (0.75 : ℚ)
  have hd : decimalValue ("0.75".toList)
      = (digitsVal ("0".toList) : ℚ)
        + (digitsVal ("75".toList) : ℚ) / (10 : ℚ) ^ (("75".toList).length) := rfl
  rw [hd, show digitsVal ("0".toList) = 0 from by decide,
    show digitsVal ("75".toList) = 75 from by decide]
  norm_num

/-- C4: the empty-response detector answers "empty" exactly when the
conversation has no messages, or the last message's content (defaulted to ""
when absent) strips to the empty string, or the stripped content starts with
the literal placeholder marker. -/
theorem is_empty_assistant_iff (convo : List Message) :
    is_empty_assistant convo = true ↔
      convo = [] ∨ ∃ m, convo.getLast? = some m ∧
        (pyStrip (m.content.getD []) = [] ∨
          (pyStrip (m.content.getD [])).take noRespMarker.length = noRespMarker) := by
  unfold is_empty_assistant
  cases hl : convo.getLast? with
  | none =>
    simp only [List.getLast?_eq_none_iff.mp hl]
    simp
  | some m =>
    have hne : convo ≠ [] := by
      intro hnil
      rw [hnil] at hl
      cases hl
    dsimp only
    constructor
    · intro hemp
      refine Or.inr ⟨m, rfl, ?_⟩
      by_cases h1 : pyStrip (m.content.getD []) = []
      · exact Or.inl h1
      · by_cases h2 :
          (pyStrip (m.content.getD [])).take noRespMarker.length = noRespMarker
        · exact Or.inr h2
        · rw [if_neg h1, if_neg h2] at hemp
          cases hemp
    · rintro (hnil | ⟨m2, hm2, hcase⟩)
      · exact absurd hnil hne
      · injection hm2 with hm2
        rw [← hm2] at hcase
        rcases hcase with h1 | h2
        · rw [if_pos h1]
        · by_cases h1 : pyStrip (m.content.getD []) = []
          · rw [if_pos h1]
          · rw [if_neg h1, if_pos h2]

/-- C6: an example whose conversation is flagged empty is counted as skipped
and never kept, wherever it sits in the processed sequence and whatever its
HTML snippet contains: removing it from the input lowers the skipped count by
exactly one and leaves the kept scores unchanged. -/
theorem empty_convo_always_skipped (l1 l2 : List (List Char × List Message))
    (h : List Char) (c : List Message)
    (he : is_empty_assistant c = true) :
    (loop (l1 ++ (h, c) :: l2)).skipped = (loop (l1 ++ l2)).skipped + 1 ∧
    (loop (l1 ++ (h, c) :: l2)).kept_scores = (loop (l1 ++ l2)).kept_scores := by
  induction l1 with
  | nil =>
    have hc : classify h c = Outcome.skipped := by
      unfold classify
      rw [if_pos he]
    refine ⟨?_, ?_⟩ <;> simp [loop, hc]
  | cons p rest ih =>
    obtain ⟨ph, pc⟩ := p
    simp only [List.cons_append, loop]
    cases classify ph pc <;>
      simp [List.append_eq, ih.1, ih.2]

/-- C6 witness: one example, placed alone, with a parseable score in its HTML
but an empty conversation: it is skipped, not kept. -/
theorem empty_convo_always_skipped_witness :
    is_empty_assistant ([] : List Message) = true ∧
    ((loop ([] ++ ("Score: True".toList, ([] : List Message)) :: [])).skipped
        = (loop ([] ++ ([] : List (List Char × List Message)))).skipped + 1 ∧
      (loop ([] ++ ("Score: True".toList, ([] : List Message)) :: [])).kept_scores
        = (loop ([] ++ ([] : List (List Char × List Message)))).kept_scores) :=
  ⟨by decide,
    empty_convo_always_skipped [] [] ("Score: True".toList) [] (by decide)⟩

/-- C7: a length mismatch between `htmls` and `convos` is not fatal: the
warning flag is set, the aggregation covers exactly the indices below the
min of the two lengths (each counted once as kept or skipped), and the
summary and report are still produced (the report holds the header plus one
fragment per kept example). -/
theorem length_mismatch_recoverable (path : String) (b : Bundle)
    (hne : (getConvos b).length ≠ (getHtmls b).length) :
    (processBundle path b).warning = true ∧
    (processBundle path b).summary.kept_examples
        + (processBundle path b).summary.skipped_examples
      = min (getHtmls b).length (getConvos b).length ∧
    (processBundle path b).report_fragments.length
      = (processBundle path b).summary.kept_examples + 1 := by
  refine ⟨?_, ?_, ?_⟩
  · exact decide_eq_true hne
  · show (loop ((getHtmls b).zip (getConvos b))).kept_scores.length
        + (loop ((getHtmls b).zip (getConvos b))).skipped = _
    rw [loop_kept_add_skipped, List.length_zip]
  · show (loop ((getHtmls b).zip (getConvos b))).kept_htmls.length + 1 = _
    rw [loop_kept_htmls_length]
    rfl

/-- The length-mismatch scenario bundle: five HTML snippets, three
conversations. -/
def mismatchBundle : Bundle :=
  { htmls := some (List.replicate 5 ("Score: True".toList))
  , convos := some (List.replicate 3 [{ content := some ("hi".toList) }])
  , score := none }

/-- C7 witness: five HTML snippets against three conversations — the warning
fires, only indices 0..2 are processed, and the report is still built. -/
theorem length_mismatch_recoverable_witness :
    (getConvos mismatchBundle).length ≠ (getHtmls mismatchBundle).length ∧
    ((processBundle "f" mismatchBundle).warning = true ∧
      (processBundle "f" mismatchBundle).summary.kept_examples
          + (processBundle "f" mismatchBundle).summary.skipped_examples
        = min (getHtmls mismatchBundle).length (getConvos mismatchBundle).length ∧
      (processBundle "f" mismatchBundle).report_fragments.length
        = (processBundle "f" mismatchBundle).summary.kept_examples + 1) :=
  ⟨by decide, length_mismatch_recoverable "f" mismatchBundle (by decide)⟩

/-- C8: when neither `--file` nor `--latest` yields a path, or `--latest`
finds zero candidates, the run fails with the corresponding fatal message
(a `SystemExit`: nonzero status), and no summary or report is produced. -/
theorem config_error_fatal (file : Option String) (latest : Bool)
    (candidates : List String) (b : Bundle) :
    (optTruthy file = false → latest = false →
      mainModel file latest candidates b
        = Except.error "Must provide --file or --latest") ∧
    (optTruthy file = false → latest = true → candidates = [] →
      mainModel file latest candidates b
        = Except.error "No /tmp/browsecomp_*_allresults.json files found") ∧
    (∀ e out, mainModel file latest candidates b = Except.error e →
      mainModel file latest candidates b ≠ Except.ok out) := by
  refine ⟨?_, ?_, ?_⟩
  · intro hf hl
    subst hl
    simp [mainModel, resolveInput, hf]
  · intro hf hl hc
    subst hl
    subst hc
    simp [mainModel, resolveInput, hf, List.mergeSort_nil]
  · intro e out he hok
    rw [he] at hok
    cases hok

/-- C8 witness: with neither flag, the run exits with the "must provide"
message. -/
theorem config_error_fatal_witness :
    optTruthy (none : Option String) = false ∧
    mainModel none false [] {} = Except.error "Must provide --file or --latest" :=
  ⟨by decide, (config_error_fatal none false [] {}).1 rfl rfl⟩

/-- C9: a missing `htmls` or `convos` key is treated as the empty sequence,
and with both keys missing the summary reports zero total, zero kept and
zero skipped examples. -/
theorem missing_keys_tolerated (path : String) (b : Bundle) :
    (b.htmls = none → getHtmls b = []) ∧
    (b.convos = none → getConvos b = []) ∧
    (b.htmls = none → b.convos = none →
      (processBundle path b).summary.total_examples = 0 ∧
      (processBundle path b).summary.kept_examples = 0 ∧
      (processBundle path b).summary.skipped_examples = 0) := by
  refine ⟨?_, ?_, ?_⟩
  · intro h
    simp [getHtmls, h]
  · intro h
    simp [getConvos, h]
  · intro hh hc
    refine ⟨?_, ?_, ?_⟩ <;>
      simp [processBundle, getHtmls, getConvos, hh, hc, loop]

/-- C9 witness: the bundle with both keys missing yields the all-zero
summary. -/
theorem missing_keys_tolerated_witness :
    ({} : Bundle).htmls = none ∧ ({} : Bundle).convos = none ∧
    ((processBundle "f" {}).summary.total_examples = 0 ∧
      (processBundle "f" {}).summary.kept_examples = 0 ∧
      (processBundle "f" {}).summary.skipped_examples = 0) :=
  ⟨rfl, rfl, (missing_keys_tolerated "f" {}).2.2 rfl rfl⟩

/-- C10: `total_examples` is always the length of `htmls` alone, so whenever
`convos` is strictly shorter than `htmls` the total strictly exceeds
kept plus skipped. -/
theorem total_examples_is_len_htmls (path : String) (b : Bundle) :
    (processBundle path b).summary.total_examples = (getHtmls b).length ∧
    ((getConvos b).length < (getHtmls b).length →
      (processBundle path b).summary.kept_examples
          + (processBundle path b).summary.skipped_examples
        < (processBundle path b).summary.total_examples) := by
  constructor
  · rfl
  · intro hlt
    have h1 : (processBundle path b).summary.kept_examples
        + (processBundle path b).summary.skipped_examples
        = min (getHtmls b).length (getConvos b).length := by
      show (loop ((getHtmls b).zip (getConvos b))).kept_scores.length
          + (loop ((getHtmls b).zip (getConvos b))).skipped = _
      rw [loop_kept_add_skipped, List.length_zip]
    rw [h1]
    show min (getHtmls b).length (getConvos b).length < (getHtmls b).length
    omega

/-- The short-convos scenario bundle: two HTML snippets, one conversation. -/
def shortConvosBundle : Bundle :=
  { htmls := some [[], []], convos := some [[]], score := none }

/-- C10 witness: two HTML snippets against one conversation — the total is 2
while kept plus skipped is 1. -/
theorem total_examples_is_len_htmls_witness :
    (getConvos shortConvosBundle).length < (getHtmls shortConvosBundle).length ∧
    (processBundle "f" shortConvosBundle).summary.kept_examples
        + (processBundle "f" shortConvosBundle).summary.skipped_examples
      < (processBundle "f" shortConvosBundle).summary.total_examples :=
  ⟨by decide, (total_examples_is_len_htmls "f" shortConvosBundle).2 (by decide)⟩
